import Mathlib

/-!
Shallow embedding of the gohome-timer backend (src/main.py): the
authentication, token, rate-limiting and timer-update logic, modelled as
pure functions over explicit server state.  Timestamps are integers
(seconds since the epoch; every duration in the source is a whole number
of seconds, and every claim is about ordering and sums of timestamps,
so integer time is a faithful embedding).  A JWT is modelled as a claim set paired with
the key that signed it; decoding succeeds exactly when the verification
key matches the signing key and the token is unexpired, and the signature
is checked before expiry, as PyJWT does.
-/

namespace GoHome

deriving instance DecidableEq for Except

/-- HTTPException: an HTTP status code together with its detail message. -/
structure HTTPError where
  status : Nat
  detail : String
  deriving DecidableEq

/-- JWT claim set as used by main.py: an optional slug claim plus the
exp (expiry) timestamp. -/
structure JwtClaims where
  slug : Option String
  exp : Int
  deriving DecidableEq

/-- A signed token, as produced by jwt.encode: its claim set together with
the secret that signed it. -/
structure Token where
  claims : JwtClaims
  key : String
  deriving DecidableEq

/-- Outcomes of jwt.decode: ExpiredSignatureError or a generic PyJWTError. -/
inductive JwtError
  | expired
  | invalid
  deriving DecidableEq

/-- jwt.decode with a single verification key: a signature mismatch raises
the generic PyJWTError (invalid); a correctly signed token whose exp has
passed raises ExpiredSignatureError.  PyJWT verifies the signature before
validating the exp claim, and treats exp less than or equal to now as
expired. -/
def jwt_decode (tok : Token) (secret : String) (now : Int) : Except JwtError JwtClaims :=
  if tok.key ≠ secret then .error .invalid
  else if tok.claims.exp ≤ now then .error .expired
  else .ok tok.claims

/-- Process configuration: the two signing secrets (both present, since the
process refuses to start otherwise) and the optional per-slug admin
passwords. -/
structure Config where
  jwt_secret : String
  refresh_secret : String
  admin_password_se : Option String
  admin_password_min : Option String
  admin_password_tutoring : Option String
  deriving DecidableEq

/-- get_admin_password from main.py. -/
def get_admin_password (cfg : Config) (slug : String) : Option String :=
  if slug = "se" then cfg.admin_password_se
  else if slug = "min" then cfg.admin_password_min
  else if slug = "tutoring" then cfg.admin_password_tutoring
  else none

/-- The closed tenant set, the tuple ("se", "min", "tutoring") in main.py. -/
def SLUGS : List String := ["se", "min", "tutoring"]

/-- create_access_token: claims are a copy of the data (always a slug here)
plus exp = now + expires_delta, signed with JWT_SECRET.  Every caller in
main.py passes expires_delta = 15 minutes. -/
def create_access_token (cfg : Config) (now : Int) (slug : String) (expires_delta : Int) : Token :=
  ⟨⟨some slug, now + expires_delta⟩, cfg.jwt_secret⟩

/-- The refresh-token issuance inlined in admin_login: payload
with slug and exp = now + 7 days, signed with REFRESH_SECRET. -/
def issue_refresh_token (cfg : Config) (now : Int) (slug : String) : Token :=
  ⟨⟨some slug, now + 7 * 24 * 3600⟩, cfg.refresh_secret⟩

/-- get_current_slug: the bearer-token dependency of the set-time endpoint.
The authorization argument is none when the header is absent or does not
carry a bearer token, otherwise it is the presented token.  The 403 raised
for an out-of-set slug is an HTTPException, not a PyJWTError, so it
propagates out of the try block. -/
def get_current_slug (cfg : Config) (now : Int) (authorization : Option Token) :
    Except HTTPError String :=
  match authorization with
  | none => .error ⟨401, "인증 토큰이 필요합니다."⟩
  | some token =>
    match jwt_decode token cfg.jwt_secret now with
    | .error .expired => .error ⟨401, "토큰이 만료되었습니다."⟩
    | .error .invalid => .error ⟨401, "유효하지 않은 토큰입니다."⟩
    | .ok payload =>
      match payload.slug with
      | some slug =>
        if slug ∈ SLUGS then .ok slug
        else .error ⟨403, "유효하지 않은 토큰입니다."⟩
      | none => .error ⟨403, "유효하지 않은 토큰입니다."⟩

/-- One rate-limit entry: window_start, count, blocked_until (main.py keeps
these in a per-key dict, always with all three fields present). -/
structure RLInfo where
  window_start : Int
  count : Nat
  blocked_until : Int
  deriving DecidableEq

/-- The three ways an admission check can end: allowed; blocked because
blocked_until is still in the future; or blocked because this call pushed
the in-window count over the limit. -/
inductive RLOutcome
  | allowed
  | blockedExisting
  | blockedNew
  deriving DecidableEq

/-- The state transition of check_rate_limit on a single entry:
no entry yet creates a fresh window with count 1; a future blocked_until
blocks without touching the entry; an elapsed window resets; otherwise the
count is incremented and, past the limit, blocked_until is set to
now + block_sec. -/
def rlStep (limit : Nat) (window_sec block_sec : Int) (info : Option RLInfo) (now : Int) :
    RLOutcome × RLInfo :=
  match info with
  | none => (.allowed, ⟨now, 1, 0⟩)
  | some i =>
    if now < i.blocked_until then (.blockedExisting, i)
    else if window_sec < now - i.window_start then (.allowed, ⟨now, 1, 0⟩)
    else if limit < i.count + 1 then (.blockedNew, ⟨i.window_start, i.count + 1, now + block_sec⟩)
    else (.allowed, ⟨i.window_start, i.count + 1, i.blocked_until⟩)

/-- The rate-limit key for the login endpoint. -/
def LOGIN_KEY : String := "admin_login"

/-- The rate-limit key for the refresh endpoint. -/
def REFRESH_KEY : String := "admin_refresh"

/-- check_rate_limit from main.py, as a function from the rate-limit map to
an HTTP outcome and the updated map; the map key is the f-string
ip colon key.  In the already-blocked case main.py writes nothing; writing
the unchanged entry back is pointwise the same map. -/
def check_rate_limit (now : Int) (ip key : String) (limit : Nat) (window_sec block_sec : Int)
    (state : String → Option RLInfo) :
    Except HTTPError Unit × (String → Option RLInfo) :=
  let state_key := ip ++ ":" ++ key
  let res := (rlStep limit window_sec block_sec (state state_key) now).1
  let info2 := (rlStep limit window_sec block_sec (state state_key) now).2
  (match res with
   | .allowed => .ok ()
   | .blockedExisting => .error ⟨429, "요청이 너무 많아요. 잠깐 쉬어가기!"⟩
   | .blockedNew => .error ⟨429, "시도를 너무 많이 했어요. 잠시 후에 다시 시도해주세요."⟩,
   fun k => if k = state_key then some info2 else state k)

/-- The process-wide mutable state of main.py: the rate-limit dict, the
failed-login dict (reads default to 0, matching dict.get), and the
timer_settings table as a map from slug to its hour and minute row. -/
structure ServerState where
  rate_limit : String → Option RLInfo
  failed_login : String → Nat
  timer : String → Option (Int × Int)

/-- LoginRequest body: slug and password. -/
structure LoginRequest where
  slug : String
  password : String
  deriving DecidableEq

/-- RefreshRequest body: the refresh token. -/
structure RefreshRequest where
  refresh_token : Token
  deriving DecidableEq

/-- TimeUpdate body: hour and minute only; it carries no slug. -/
structure TimeUpdate where
  hour : Int
  minute : Int
  deriving DecidableEq

/-- The successful login response. -/
structure LoginResponse where
  access_token : Token
  refresh_token : Token
  token_type : String
  deriving DecidableEq

/-- Truth value of the Python test
`not expected_pw or data.password != expected_pw`
(a missing or empty configured password is falsy and always rejects). -/
def loginRejected (expected_pw : Option String) (password : String) : Bool :=
  match expected_pw with
  | none => true
  | some p => p = "" ∨ password ≠ p

/-- admin_login from main.py: rate check for (ip, admin_login), then slug
validation, then credential check with failed-counter bookkeeping, then
token issuance.  The warning print at five failures is log-only. -/
def admin_login (cfg : Config) (now : Int) (client_ip : String) (data : LoginRequest)
    (st : ServerState) : Except HTTPError LoginResponse × ServerState :=
  let rl := check_rate_limit now client_ip LOGIN_KEY 10 60 3600 st.rate_limit
  let st1 : ServerState := { st with rate_limit := rl.2 }
  match rl.1 with
  | .error e => (.error e, st1)
  | .ok _ =>
    if data.slug ∈ SLUGS then
      let expected_pw := get_admin_password cfg data.slug
      if loginRejected expected_pw data.password then
        let key := client_ip ++ ":" ++ data.slug
        let count := st1.failed_login key + 1
        (.error ⟨403, "비밀번호가 틀렸습니다."⟩,
         { st1 with failed_login := fun k => if k = key then count else st1.failed_login k })
      else
        let key := client_ip ++ ":" ++ data.slug
        let st2 : ServerState :=
          { st1 with failed_login := fun k => if k = key then 0 else st1.failed_login k }
        (.ok ⟨create_access_token cfg now data.slug (15 * 60),
              issue_refresh_token cfg now data.slug, "bearer"⟩, st2)
    else
      (.error ⟨400, "올바른 slug가 아닙니다: se, min, tutoring"⟩, st1)

/-- refresh_access_token from main.py: rate check for (ip, admin_refresh)
with limit 30, then decode of the refresh token against REFRESH_SECRET,
slug re-validation, and issuance of a fresh 15-minute access token.  The
401 raised for an out-of-set slug is an HTTPException, not a PyJWTError,
so it propagates out of the try block. -/
def refresh_access_token (cfg : Config) (now : Int) (client_ip : String) (data : RefreshRequest)
    (st : ServerState) : Except HTTPError Token × ServerState :=
  let rl := check_rate_limit now client_ip REFRESH_KEY 30 60 3600 st.rate_limit
  let st1 : ServerState := { st with rate_limit := rl.2 }
  match rl.1 with
  | .error e => (.error e, st1)
  | .ok _ =>
    match jwt_decode data.refresh_token cfg.refresh_secret now with
    | .error .expired => (.error ⟨401, "리프레시 토큰이 만료되었습니다. 다시 로그인하세요."⟩, st1)
    | .error .invalid => (.error ⟨401, "다시 로그인하세요."⟩, st1)
    | .ok payload =>
      match payload.slug with
      | some slug =>
        if slug ∈ SLUGS then
          (.ok (create_access_token cfg now slug (15 * 60)), st1)
        else (.error ⟨401, "다시 로그인하세요."⟩, st1)
      | none => (.error ⟨401, "다시 로그인하세요."⟩, st1)

/-- Two-digit zero padding, the :02d format used in the success message. -/
def pad2 (n : Int) : String :=
  (if 0 ≤ n ∧ n < 10 then "0" else "") ++ toString n

/-- set_target_time from main.py: the slug comes only from the verified
bearer token; the body is range-checked and then the UPDATE writes the
hour and minute of that slug row alone (an UPDATE with no matching row
changes nothing). -/
def set_target_time (cfg : Config) (now : Int) (authorization : Option Token) (data : TimeUpdate)
    (st : ServerState) : Except HTTPError String × ServerState :=
  match get_current_slug cfg now authorization with
  | .error e => (.error e, st)
  | .ok slug =>
    if ¬ (0 ≤ data.hour ∧ data.hour ≤ 23 ∧ 0 ≤ data.minute ∧ data.minute ≤ 59) then
      (.error ⟨400, "올바른 시간 형식이 아닙니다."⟩, st)
    else
      (.ok (slug ++ " 타이머가 " ++ pad2 data.hour ++ ":" ++ pad2 data.minute
              ++ "로 설정되었습니다."),
       { st with timer := fun k =>
           if k = slug then (st.timer k).map (fun _ => (data.hour, data.minute))
           else st.timer k })

/-- State of the login rate-limit entry after the first k admission checks
of a fresh key, checked at times t 0, t 1, and so on. -/
def rlRun (limit : Nat) (window_sec block_sec : Int) (t : Nat → Int) : Nat → Option RLInfo
  | 0 => none
  | k + 1 => some (rlStep limit window_sec block_sec (rlRun limit window_sec block_sec t k) (t k)).2

/-- State of a rate-limit entry after a further batch of admission checks
at the listed times. -/
def rlFold (limit : Nat) (window_sec block_sec : Int) (s : Option RLInfo) (ts : List Int) :
    Option RLInfo :=
  ts.foldl (fun s now => some (rlStep limit window_sec block_sec s now).2) s

/-- Server state after k consecutive admin_login calls from one client,
the k-th issued at time t k with body reqs k. -/
def loginRun (cfg : Config) (ip : String) (reqs : Nat → LoginRequest) (t : Nat → Int)
    (st0 : ServerState) : Nat → ServerState
  | 0 => st0
  | k + 1 => (admin_login cfg (t k) ip (reqs k) (loginRun cfg ip reqs t st0 k)).2

/-- A concrete configuration used to evaluate the theorems: distinct
signing secrets, a password for se and tutoring, none for min. -/
def wCfg : Config :=
  { jwt_secret := "access-secret", refresh_secret := "refresh-secret",
    admin_password_se := some "sepw", admin_password_min := none,
    admin_password_tutoring := some "tutpw" }

/-- A concrete fresh server state: empty rate-limit map, zero failure
counters, and the default 18:00 row for each known tenant. -/
def wState : ServerState :=
  { rate_limit := fun _ => none, failed_login := fun _ => 0,
    timer := fun s => if s ∈ SLUGS then some (18, 0) else none }

/-- C8: an admission check on an entry whose blocked_until is strictly in
the future returns Blocked (the already-blocked 429) and leaves the entry
entirely unchanged: the count is not incremented and window_start and
blocked_until keep their prior values; at map level the rate-limit state
is pointwise unchanged. -/
theorem C8_blocked_entry_unchanged (limit : Nat) (window_sec block_sec : Int) (i : RLInfo)
    (now : Int) (h : now < i.blocked_until) :
    rlStep limit window_sec block_sec (some i) now = (.blockedExisting, i)
    ∧ ∀ (st : String → Option RLInfo) (ip key : String),
        st (ip ++ ":" ++ key) = some i →
        (check_rate_limit now ip key limit window_sec block_sec st).1
            = .error ⟨429, "요청이 너무 많아요. 잠깐 쉬어가기!"⟩
        ∧ ∀ k, (check_rate_limit now ip key limit window_sec block_sec st).2 k = st k := by
  refine ⟨by simp [rlStep, h], ?_⟩
  intro st ip key hst
  refine ⟨by simp [check_rate_limit, hst, rlStep, h], ?_⟩
  intro k
  by_cases hk : k = ip ++ ":" ++ key
  · subst hk
    simp [check_rate_limit, hst, rlStep, h]
  · simp [check_rate_limit, hk]

/-- Witness for C8 at a concrete blocked entry. -/
theorem C8_witness :
    rlStep 10 60 3600 (some ⟨0, 3, 100⟩) 50 = (.blockedExisting, ⟨0, 3, 100⟩)
    ∧ (check_rate_limit 50 ("ip1") LOGIN_KEY 10 60 3600
          (fun k => if k = "ip1:admin_login" then some ⟨0, 3, 100⟩ else none)).1
        = .error ⟨429, "요청이 너무 많아요. 잠깐 쉬어가기!"⟩ := by
  obtain ⟨h1, h2⟩ := C8_blocked_entry_unchanged 10 60 3600 ⟨0, 3, 100⟩ 50 (by decide)
  exact ⟨h1, (h2 (fun k => if k = "ip1:admin_login" then some ⟨0, 3, 100⟩ else none)
      ("ip1") LOGIN_KEY (by decide)).1⟩

/-- C3: with distinct access and refresh signing secrets, a refresh token
never verifies against the access secret and an access token never
verifies against the refresh secret; the failure is the invalid-token
error, never a successful decode and never the expired error, and the
bearer verification path turns it into the 401 invalid-token response. -/
theorem C3_secret_separation (cfg : Config) (hne : cfg.jwt_secret ≠ cfg.refresh_secret)
    (slug : String) (t1 t2 d now : Int) :
    jwt_decode (issue_refresh_token cfg t1 slug) cfg.jwt_secret now = .error .invalid
    ∧ jwt_decode (create_access_token cfg t2 slug d) cfg.refresh_secret now = .error .invalid
    ∧ get_current_slug cfg now (some (issue_refresh_token cfg t1 slug))
        = .error ⟨401, "유효하지 않은 토큰입니다."⟩ := by
  have h1 : jwt_decode (issue_refresh_token cfg t1 slug) cfg.jwt_secret now
      = .error .invalid := by
    simp [jwt_decode, issue_refresh_token, Ne.symm hne]
  refine ⟨h1, by simp [jwt_decode, create_access_token, hne], ?_⟩
  simp [get_current_slug, h1]

/-- Witness for C3 at the concrete configuration. -/
theorem C3_witness :
    jwt_decode (issue_refresh_token wCfg 0 ("se")) wCfg.jwt_secret 5 = .error .invalid
    ∧ jwt_decode (create_access_token wCfg 0 ("se") 900) wCfg.refresh_secret 5
        = .error .invalid
    ∧ get_current_slug wCfg 5 (some (issue_refresh_token wCfg 0 ("se")))
        = .error ⟨401, "유효하지 않은 토큰입니다."⟩ :=
  C3_secret_separation wCfg (by decide) ("se") 0 0 900 5

/-- C6: a set-time request bearing a validly signed but expired access
token is rejected with the 401 expired-token error and no state change;
that error is distinct from the 403 used for unknown-tenant tokens and
from the 401 invalid-token error used for malformed or wrongly signed
tokens. -/
theorem C6_expired_token_unauthorized (cfg : Config) (now : Int) (tok : Token)
    (data : TimeUpdate) (st : ServerState)
    (hkey : tok.key = cfg.jwt_secret) (hexp : tok.claims.exp ≤ now) :
    (set_target_time cfg now (some tok) data st).1 = .error ⟨401, "토큰이 만료되었습니다."⟩
    ∧ (set_target_time cfg now (some tok) data st).2 = st
    ∧ (⟨401, "토큰이 만료되었습니다."⟩ : HTTPError).status = 401
    ∧ (⟨401, "토큰이 만료되었습니다."⟩ : HTTPError) ≠ ⟨403, "유효하지 않은 토큰입니다."⟩
    ∧ (⟨401, "토큰이 만료되었습니다."⟩ : HTTPError) ≠ ⟨401, "유효하지 않은 토큰입니다."⟩ := by
  have hd : jwt_decode tok cfg.jwt_secret now = .error .expired := by
    simp [jwt_decode, hkey, hexp]
  refine ⟨?_, ?_, rfl, by decide, by decide⟩
  · simp [set_target_time, get_current_slug, hd]
  · simp [set_target_time, get_current_slug, hd]

/-- Witness for C6: a token that expired at time 10, presented at time 20. -/
theorem C6_witness :
    (set_target_time wCfg 20 (some ⟨⟨some "se", 10⟩, "access-secret"⟩) ⟨9, 30⟩ wState).1
        = .error ⟨401, "토큰이 만료되었습니다."⟩
    ∧ (⟨401, "토큰이 만료되었습니다."⟩ : HTTPError) ≠ ⟨401, "유효하지 않은 토큰입니다."⟩ := by
  obtain ⟨h1, _, _, _, h5⟩ := C6_expired_token_unauthorized wCfg 20
    ⟨⟨some "se", 10⟩, "access-secret"⟩ ⟨9, 30⟩ wState (by decide) (by decide)
  exact ⟨h1, h5⟩

/-- C7: a set-time request whose hour is outside 0..23 or whose minute is
outside 0..59 is rejected with the 400 bad-request error even under valid
authentication, and the server state, in particular every TimerSetting,
is returned unchanged. -/
theorem C7_bad_time_range (cfg : Config) (now : Int) (auth : Option Token) (data : TimeUpdate)
    (st : ServerState) (slug : String)
    (hauth : get_current_slug cfg now auth = .ok slug)
    (hbad : ¬ (0 ≤ data.hour ∧ data.hour ≤ 23 ∧ 0 ≤ data.minute ∧ data.minute ≤ 59)) :
    set_target_time cfg now auth data st = (.error ⟨400, "올바른 시간 형식이 아닙니다."⟩, st) := by
  simp [set_target_time, hauth, hbad]

/-- Witness for C7: hour 24 with a valid unexpired token. -/
theorem C7_witness :
    set_target_time wCfg 0 (some ⟨⟨some "se", 900⟩, "access-secret"⟩) ⟨24, 0⟩ wState
        = (.error ⟨400, "올바른 시간 형식이 아닙니다."⟩, wState) :=
  C7_bad_time_range wCfg 0 (some ⟨⟨some "se", 900⟩, "access-secret"⟩) ⟨24, 0⟩ wState ("se")
    (by decide) (by decide)

/-- C1: a tenant identifier outside the closed set is rejected everywhere:
login with such a slug gets the 400 bad-request error (when not
rate-limited), a validly signed unexpired access token carrying such a
slug is rejected by the bearer verification path, and a validly signed
unexpired refresh token carrying such a slug is rejected by the refresh
path (when not rate-limited). -/
theorem C1_unknown_tenant_rejected (cfg : Config) (now : Int) (ip : String) (st : ServerState)
    (slug password : String) (tokA tokR : Token)
    (hslug : slug ∉ SLUGS)
    (hrlL : (rlStep 10 60 3600 (st.rate_limit (ip ++ ":" ++ LOGIN_KEY)) now).1 = .allowed)
    (hrlR : (rlStep 30 60 3600 (st.rate_limit (ip ++ ":" ++ REFRESH_KEY)) now).1 = .allowed)
    (hA1 : tokA.key = cfg.jwt_secret) (hA2 : tokA.claims.slug = some slug)
    (hA3 : now < tokA.claims.exp)
    (hR1 : tokR.key = cfg.refresh_secret) (hR2 : tokR.claims.slug = some slug)
    (hR3 : now < tokR.claims.exp) :
    (admin_login cfg now ip ⟨slug, password⟩ st).1
        = .error ⟨400, "올바른 slug가 아닙니다: se, min, tutoring"⟩
    ∧ get_current_slug cfg now (some tokA) = .error ⟨403, "유효하지 않은 토큰입니다."⟩
    ∧ (refresh_access_token cfg now ip ⟨tokR⟩ st).1 = .error ⟨401, "다시 로그인하세요."⟩ := by
  refine ⟨?_, ?_, ?_⟩
  · simp [admin_login, check_rate_limit, hrlL, hslug]
  · simp [get_current_slug, jwt_decode, hA1, hA2, hslug, not_le.mpr hA3]
  · simp [refresh_access_token, check_rate_limit, hrlR, jwt_decode, hR1, hR2, hslug,
      not_le.mpr hR3]

/-- Witness for C1 with the unknown slug admin, a fresh rate-limit map and
tokens correctly signed with each secret. -/
theorem C1_witness :
    (admin_login wCfg 0 ("ip1") ⟨"admin", "pw"⟩ wState).1
        = .error ⟨400, "올바른 slug가 아닙니다: se, min, tutoring"⟩
    ∧ get_current_slug wCfg 0 (some ⟨⟨some "admin", 900⟩, "access-secret"⟩)
        = .error ⟨403, "유효하지 않은 토큰입니다."⟩
    ∧ (refresh_access_token wCfg 0 ("ip1") ⟨⟨⟨some "admin", 900⟩, "refresh-secret"⟩⟩ wState).1
        = .error ⟨401, "다시 로그인하세요."⟩ :=
  C1_unknown_tenant_rejected wCfg 0 ("ip1") wState ("admin") ("pw")
    ⟨⟨some "admin", 900⟩, "access-secret"⟩ ⟨⟨some "admin", 900⟩, "refresh-secret"⟩
    (by decide) (by decide) (by decide) (by decide) (by decide) (by decide)
    (by decide) (by decide) (by decide)

/-- C4: the TimerSetting row written by set_target_time is exactly the
tenant decoded from the bearer token: every other slug keeps its prior
value, and when the body passes the range check the decoded slug row is
overwritten with exactly the hour and minute of the body (the body
carries no slug at all, see TimeUpdate). -/
theorem C4_write_scope (cfg : Config) (now : Int) (auth : Option Token) (data : TimeUpdate)
    (st : ServerState) (slug : String)
    (hauth : get_current_slug cfg now auth = .ok slug) :
    (∀ s, s ≠ slug → ((set_target_time cfg now auth data st).2).timer s = st.timer s)
    ∧ ((0 ≤ data.hour ∧ data.hour ≤ 23 ∧ 0 ≤ data.minute ∧ data.minute ≤ 59) →
        ((set_target_time cfg now auth data st).2).timer slug
          = (st.timer slug).map (fun _ => (data.hour, data.minute))) := by
  by_cases hrange : 0 ≤ data.hour ∧ data.hour ≤ 23 ∧ 0 ≤ data.minute ∧ data.minute ≤ 59
  · refine ⟨?_, fun _ => ?_⟩
    · intro s hs
      simp [set_target_time, hauth, hrange, hs]
    · simp [set_target_time, hauth, hrange]
  · refine ⟨?_, fun h => absurd h hrange⟩
    intro s _
    simp [set_target_time, hauth, hrange]

/-- Witness for C4: a token for se updates the se row and leaves min and
tutoring untouched. -/
theorem C4_witness :
    ((set_target_time wCfg 0 (some ⟨⟨some "se", 900⟩, "access-secret"⟩) ⟨9, 30⟩ wState).2).timer
        ("min") = wState.timer ("min")
    ∧ ((set_target_time wCfg 0 (some ⟨⟨some "se", 900⟩, "access-secret"⟩) ⟨9, 30⟩ wState).2).timer
        ("se") = (wState.timer ("se")).map (fun _ => ((9 : Int), (30 : Int))) := by
  obtain ⟨h1, h2⟩ := C4_write_scope wCfg 0 (some ⟨⟨some "se", 900⟩, "access-secret"⟩) ⟨9, 30⟩
    wState ("se") (by decide)
  exact ⟨h1 ("min") (by decide), h2 (by decide)⟩

/-- C5: for a login attempt on a tenant of the closed set with a
configured non-empty password, passing the rate check: a wrong password
increments the FailedLoginCounter of this caller and tenant by exactly one
and terminates with the 403 forbidden error, while the right password
resets that counter to 0, whatever its prior value, and issues the token
pair. -/
theorem C5_failed_login_counter (cfg : Config) (now : Int) (ip : String) (data : LoginRequest)
    (st : ServerState) (pw : String)
    (hslug : data.slug ∈ SLUGS)
    (hrl : (rlStep 10 60 3600 (st.rate_limit (ip ++ ":" ++ LOGIN_KEY)) now).1 = .allowed)
    (hpw : get_admin_password cfg data.slug = some pw) (hpw0 : pw ≠ "") :
    (data.password ≠ pw →
      (admin_login cfg now ip data st).1 = .error ⟨403, "비밀번호가 틀렸습니다."⟩
      ∧ ((admin_login cfg now ip data st).2).failed_login (ip ++ ":" ++ data.slug)
          = st.failed_login (ip ++ ":" ++ data.slug) + 1)
    ∧ (data.password = pw →
      ((admin_login cfg now ip data st).2).failed_login (ip ++ ":" ++ data.slug) = 0
      ∧ (admin_login cfg now ip data st).1
          = .ok ⟨create_access_token cfg now data.slug (15 * 60),
                 issue_refresh_token cfg now data.slug, "bearer"⟩) := by
  constructor
  · intro hne
    have hrej : loginRejected (get_admin_password cfg data.slug) data.password = true := by
      simp [loginRejected, hpw, hne]
    constructor
    · simp [admin_login, check_rate_limit, hrl, hslug, hrej]
    · simp [admin_login, check_rate_limit, hrl, hslug, hrej]
  · intro heq
    have hrej : loginRejected (get_admin_password cfg data.slug) data.password = false := by
      simp [loginRejected, hpw, hpw0, heq]
    constructor
    · simp [admin_login, check_rate_limit, hrl, hslug, hrej]
    · simp [admin_login, check_rate_limit, hrl, hslug, hrej]

/-- Witness for C5: wrong then right password for se against a state whose
counter already stands at 7. -/
theorem C5_witness :
    ((admin_login wCfg 0 ("ip1") ⟨"se", "bad"⟩
        { wState with failed_login := fun _ => 7 }).2).failed_login ("ip1:se") = 8
    ∧ ((admin_login wCfg 0 ("ip1") ⟨"se", "sepw"⟩
        { wState with failed_login := fun _ => 7 }).2).failed_login ("ip1:se") = 0 := by
  obtain ⟨hw, -⟩ := C5_failed_login_counter wCfg 0 ("ip1") ⟨"se", "bad"⟩
    { wState with failed_login := fun _ => 7 } ("sepw") (by decide) (by decide) (by decide)
    (by decide)
  obtain ⟨-, hr⟩ := C5_failed_login_counter wCfg 0 ("ip1") ⟨"se", "sepw"⟩
    { wState with failed_login := fun _ => 7 } ("sepw") (by decide) (by decide) (by decide)
    (by decide)
  exact ⟨(hw (by decide)).2, (hr (by decide)).1⟩

/-- After k admission checks (1 ≤ k ≤ 10) on a fresh login key, all made
at times inside the first 60-second window, the entry holds
window_start = t 0, count = k and no block. -/
lemma rlRun_window (t : Nat → Int) (h0 : 0 ≤ t 0)
    (hin : ∀ i, i ≤ 9 → t 0 ≤ t i ∧ t i ≤ t 0 + 60) :
    ∀ k, k ≤ 10 → 1 ≤ k → rlRun 10 60 3600 t k = some ⟨t 0, k, 0⟩ := by
  intro k
  induction k with
  | zero => omega
  | succ k ih =>
    intro hk10 _
    cases Nat.eq_zero_or_pos k with
    | inl hz =>
      subst hz
      simp [rlRun, rlStep]
    | inr hpos =>
      have hk : rlRun 10 60 3600 t k = some ⟨t 0, k, 0⟩ := ih (by omega) hpos
      obtain ⟨hl, hr⟩ := hin k (by omega)
      have h1 : ¬ (t k < (0 : Int)) := by omega
      have h2 : ¬ ((60 : Int) < t k - t 0) := by omega
      have h3 : ¬ (10 < k + 1) := by omega
      simp [rlRun, hk, rlStep, h1, h2, h3]

/-- While an entry's blocked_until lies beyond every check time of a
batch, the whole batch leaves the entry unchanged. -/
lemma rlFold_blocked (limit : Nat) (window_sec block_sec : Int) (s : RLInfo) :
    ∀ ts : List Int, (∀ v ∈ ts, v < s.blocked_until) →
      rlFold limit window_sec block_sec (some s) ts = some s := by
  intro ts
  induction ts with
  | nil => intro _; rfl
  | cons v rest ih =>
    intro h
    have hv : v < s.blocked_until := h v (List.mem_cons_self v rest)
    have hstep : rlStep limit window_sec block_sec (some s) v = (.blockedExisting, s) := by
      simp [rlStep, hv]
    simp only [rlFold, List.foldl_cons] at ih ⊢
    rw [hstep]
    exact ih (fun w hw => h w (List.mem_cons_of_mem _ hw))

/-- C2: with limit 10 and a 60-second window, eleven admission checks all
within 60 seconds of the first give Allowed on the first ten and Blocked
on the eleventh, which stamps blocked_until = now + 3600; further checks
while blocked leave the entry as it is, and the first check at or after
that blocked_until is Allowed again on a freshly reset window with count 1
and window_start = now. -/
theorem C2_window_limit_and_reset (t : Nat → Int) (h0 : 0 ≤ t 0)
    (hin : ∀ i, i ≤ 10 → t 0 ≤ t i ∧ t i ≤ t 0 + 60) :
    (∀ k, k ≤ 9 → (rlStep 10 60 3600 (rlRun 10 60 3600 t k) (t k)).1 = .allowed)
    ∧ (rlStep 10 60 3600 (rlRun 10 60 3600 t 10) (t 10)).1 = .blockedNew
    ∧ (rlStep 10 60 3600 (rlRun 10 60 3600 t 10) (t 10)).2 = ⟨t 0, 11, t 10 + 3600⟩
    ∧ ∀ ts : List Int, (∀ v ∈ ts, v < t 10 + 3600) →
        rlFold 10 60 3600 (some (rlStep 10 60 3600 (rlRun 10 60 3600 t 10) (t 10)).2) ts
          = some (rlStep 10 60 3600 (rlRun 10 60 3600 t 10) (t 10)).2
        ∧ ∀ u : Int, t 10 + 3600 ≤ u →
            rlStep 10 60 3600
                (rlFold 10 60 3600
                  (some (rlStep 10 60 3600 (rlRun 10 60 3600 t 10) (t 10)).2) ts) u
              = (.allowed, ⟨u, 1, 0⟩) := by
  have hin9 : ∀ i, i ≤ 9 → t 0 ≤ t i ∧ t i ≤ t 0 + 60 := fun i hi => hin i (by omega)
  have hten : rlRun 10 60 3600 t 10 = some ⟨t 0, 10, 0⟩ :=
    rlRun_window t h0 hin9 10 (by omega) (by omega)
  obtain ⟨hl10, hr10⟩ := hin 10 (by omega)
  have hstep10 : rlStep 10 60 3600 (rlRun 10 60 3600 t 10) (t 10)
      = (.blockedNew, ⟨t 0, 11, t 10 + 3600⟩) := by
    have h1 : ¬ (t 10 < (0 : Int)) := by omega
    have h2 : ¬ ((60 : Int) < t 10 - t 0) := by omega
    simp [hten, rlStep, h1, h2]
  refine ⟨?_, by simp [hstep10], by simp [hstep10], ?_⟩
  · intro k hk
    cases Nat.eq_zero_or_pos k with
    | inl hz => subst hz; simp [rlRun, rlStep]
    | inr hpos =>
      have hk' : rlRun 10 60 3600 t k = some ⟨t 0, k, 0⟩ :=
        rlRun_window t h0 hin9 k (by omega) hpos
      obtain ⟨hl, hr⟩ := hin k (by omega)
      have h1 : ¬ (t k < (0 : Int)) := by omega
      have h2 : ¬ ((60 : Int) < t k - t 0) := by omega
      have h3 : ¬ (10 < k + 1) := by omega
      simp [hk', rlStep, h1, h2, h3]
  · intro ts hts
    simp only [hstep10]
    have hfix : rlFold 10 60 3600 (some ⟨t 0, 11, t 10 + 3600⟩) ts
        = some ⟨t 0, 11, t 10 + 3600⟩ :=
      rlFold_blocked 10 60 3600 ⟨t 0, 11, t 10 + 3600⟩ ts hts
    refine ⟨hfix, ?_⟩
    intro u hu
    rw [hfix]
    have h1 : ¬ (u < t 10 + 3600) := by omega
    have h2 : (60 : Int) < u - t 0 := by omega
    simp [rlStep, h1, h2]

/-- Witness for C2: eleven checks at time 0, two blocked retries at times
100 and 3599, then the first check after the block, at time 3600. -/
theorem C2_witness :
    (rlStep 10 60 3600 (rlRun 10 60 3600 (fun _ => 0) 5) 0).1 = .allowed
    ∧ (rlStep 10 60 3600 (rlRun 10 60 3600 (fun _ => 0) 10) 0).1 = .blockedNew
    ∧ (rlStep 10 60 3600 (rlRun 10 60 3600 (fun _ => 0) 10) 0).2 = ⟨0, 11, 3600⟩
    ∧ rlStep 10 60 3600
        (rlFold 10 60 3600 (some (rlStep 10 60 3600 (rlRun 10 60 3600 (fun _ => 0) 10) 0).2)
          [100, 3599]) 3600
        = (.allowed, ⟨3600, 1, 0⟩) := by
  obtain ⟨ha, hb, hc, hd⟩ := C2_window_limit_and_reset (fun _ => 0) (by decide)
    (fun i _ => by constructor <;> simp)
  exact ⟨ha 5 (by decide), hb, hc, (hd [100, 3599] (by decide)).2 3600 (by decide)⟩

/-- Whatever admin_login decides, its rate-limit map is exactly the one
produced by the admission check: the rate budget is consumed before the
slug or the password is looked at, on every path. -/
lemma admin_login_rate_limit (cfg : Config) (now : Int) (ip : String) (data : LoginRequest)
    (st : ServerState) :
    ((admin_login cfg now ip data st).2).rate_limit
      = (check_rate_limit now ip LOGIN_KEY 10 60 3600 st.rate_limit).2 := by
  unfold admin_login
  cases h : (check_rate_limit now ip LOGIN_KEY 10 60 3600 st.rate_limit).1 <;> simp [h]
  split
  · split <;> rfl
  · rfl

/-- When the login admission check fails, admin_login surfaces that 429
error and leaves the failed-login counters untouched. -/
lemma admin_login_rate_limited (cfg : Config) (now : Int) (ip : String) (data : LoginRequest)
    (st : ServerState) (e : HTTPError)
    (h : (check_rate_limit now ip LOGIN_KEY 10 60 3600 st.rate_limit).1 = .error e) :
    (admin_login cfg now ip data st).1 = .error e
    ∧ ((admin_login cfg now ip data st).2).failed_login = st.failed_login := by
  unfold admin_login
  simp [h]

/-- The login rate-limit entry of a caller tracks rlRun across consecutive
admin_login calls, whatever the request bodies and their outcomes. -/
lemma loginRun_rate_key (cfg : Config) (ip : String) (reqs : Nat → LoginRequest)
    (t : Nat → Int) (st0 : ServerState)
    (hnone : st0.rate_limit (ip ++ ":" ++ LOGIN_KEY) = none) :
    ∀ k, (loginRun cfg ip reqs t st0 k).rate_limit (ip ++ ":" ++ LOGIN_KEY)
      = rlRun 10 60 3600 t k := by
  intro k
  induction k with
  | zero => simpa [loginRun, rlRun] using hnone
  | succ k ih =>
    show ((admin_login cfg (t k) ip (reqs k) (loginRun cfg ip reqs t st0 k)).2).rate_limit
        (ip ++ ":" ++ LOGIN_KEY) = rlRun 10 60 3600 t (k + 1)
    rw [admin_login_rate_limit]
    simp [check_rate_limit, ih, rlRun]

/-- C9: the rate budget is consumed before credentials or the slug are
examined: starting from a fresh login key, the eleventh login request of
a caller within 60 seconds of their first is rejected with the 429
rate-limit error whatever the slug and password carried by any of the
requests, no tokens are issued on it (the result is an error, not a
token pair), and the failed-login counters are untouched by it. -/
theorem C9_login_rate_budget_first (cfg : Config) (ip : String) (reqs : Nat → LoginRequest)
    (t : Nat → Int) (st0 : ServerState)
    (hnone : st0.rate_limit (ip ++ ":" ++ LOGIN_KEY) = none)
    (h0 : 0 ≤ t 0) (hin : ∀ i, i ≤ 10 → t 0 ≤ t i ∧ t i ≤ t 0 + 60) :
    (admin_login cfg (t 10) ip (reqs 10) (loginRun cfg ip reqs t st0 10)).1
        = .error ⟨429, "시도를 너무 많이 했어요. 잠시 후에 다시 시도해주세요."⟩
    ∧ ((admin_login cfg (t 10) ip (reqs 10) (loginRun cfg ip reqs t st0 10)).2).failed_login
        = (loginRun cfg ip reqs t st0 10).failed_login := by
  have hkey : (loginRun cfg ip reqs t st0 10).rate_limit (ip ++ ":" ++ LOGIN_KEY)
      = some ⟨t 0, 10, 0⟩ := by
    rw [loginRun_rate_key cfg ip reqs t st0 hnone 10]
    exact rlRun_window t h0 (fun i hi => hin i (by omega)) 10 (by omega) (by omega)
  obtain ⟨hl10, hr10⟩ := hin 10 (by omega)
  have h1 : ¬ (t 10 < (0 : Int)) := by omega
  have h2 : ¬ ((60 : Int) < t 10 - t 0) := by omega
  have hc : (check_rate_limit (t 10) ip LOGIN_KEY 10 60 3600
      (loginRun cfg ip reqs t st0 10).rate_limit).1
      = .error ⟨429, "시도를 너무 많이 했어요. 잠시 후에 다시 시도해주세요."⟩ := by
    simp [check_rate_limit, hkey, rlStep, h1, h2]
  exact admin_login_rate_limited cfg (t 10) ip (reqs 10) (loginRun cfg ip reqs t st0 10) _ hc

/-- Witness for C9: eleven logins at time 0 with the valid se credentials
from a fresh state; the eleventh is 429 and the counters are untouched. -/
theorem C9_witness :
    (admin_login wCfg 0 ("ip1") ⟨"se", "sepw"⟩
        (loginRun wCfg ("ip1") (fun _ => ⟨"se", "sepw"⟩) (fun _ => 0) wState 10)).1
      = .error ⟨429, "시도를 너무 많이 했어요. 잠시 후에 다시 시도해주세요."⟩
    ∧ ((admin_login wCfg 0 ("ip1") ⟨"se", "sepw"⟩
        (loginRun wCfg ("ip1") (fun _ => ⟨"se", "sepw"⟩) (fun _ => 0) wState 10)).2).failed_login
      = (loginRun wCfg ("ip1") (fun _ => ⟨"se", "sepw"⟩) (fun _ => 0) wState 10).failed_login :=
  C9_login_rate_budget_first wCfg ("ip1") (fun _ => ⟨"se", "sepw"⟩) (fun _ => 0) wState
    (by decide) (by decide) (fun i _ => by constructor <;> simp)

/-- Splitting a list at an occurrence of an element absent from both
prefixes is unambiguous. -/
lemma append_cons_inj {α : Type} (c : α) :
    ∀ (l1 l2 r1 r2 : List α), c ∉ l1 → c ∉ l2 →
      l1 ++ c :: r1 = l2 ++ c :: r2 → l1 = l2 ∧ r1 = r2 := by
  intro l1
  induction l1 with
  | nil =>
    intro l2 r1 r2 _ h2 heq
    cases l2 with
    | nil =>
      simp only [List.nil_append, List.cons.injEq] at heq
      exact ⟨rfl, heq.2⟩
    | cons y ys =>
      simp only [List.nil_append, List.cons_append, List.cons.injEq] at heq
      exact absurd (heq.1 ▸ List.mem_cons_self y ys) h2
  | cons x xs ih =>
    intro l2 r1 r2 h1 h2 heq
    cases l2 with
    | nil =>
      simp only [List.nil_append, List.cons_append, List.cons.injEq] at heq
      exact absurd (heq.1 ▸ List.mem_cons_self x xs) h1
    | cons y ys =>
      simp only [List.cons_append, List.cons.injEq] at heq
      obtain ⟨hxy, htail⟩ := heq
      obtain ⟨hl, hr⟩ := ih ys r1 r2 (fun hc => h1 (List.mem_cons_of_mem _ hc))
        (fun hc => h2 (List.mem_cons_of_mem _ hc)) htail
      exact ⟨by rw [hxy, hl], hr⟩

/-- The colon-free slug after the last colon of an f-string rate or
failed-login key determines itself: equal keys built from slugs of the
closed set have equal slugs. -/
lemma key_slug_inj (a b s t : String) (hs : s ∈ SLUGS) (ht : t ∈ SLUGS)
    (h : a ++ ":" ++ s = b ++ ":" ++ t) : s = t := by
  have hd : a.data ++ ':' :: s.data = b.data ++ ':' :: t.data := by
    have h2 := congrArg String.data h
    simpa [String.data_append] using h2
  have hrev : s.data.reverse ++ ':' :: a.data.reverse
      = t.data.reverse ++ ':' :: b.data.reverse := by
    have h3 := congrArg List.reverse hd
    simpa [List.reverse_append] using h3
  have hs' : (':' : Char) ∉ s.data.reverse := by
    rw [List.mem_reverse]
    fin_cases hs <;> decide
  have ht' : (':' : Char) ∉ t.data.reverse := by
    rw [List.mem_reverse]
    fin_cases ht <;> decide
  obtain ⟨h1, -⟩ := append_cons_inj ':' _ _ _ _ hs' ht' hrev
  have h4 : s.data = t.data := by
    have h5 := congrArg List.reverse h1
    simpa using h5
  exact String.ext h4

/-- C10: a tenant of the closed set with no configured admin password is
permanently unauthenticatable: every non-rate-limited login attempt for it
gets the 403 forbidden error and increments its FailedLoginCounter for the
caller, whatever the password; and that counter is never reset, being
nondecreasing under every operation: any admin_login call (for any caller
and body), any refresh call and any set-time call. -/
theorem C10_no_password_tenant (cfg : Config) (slug ip : String)
    (hslug : slug ∈ SLUGS) (hnopw : get_admin_password cfg slug = none) :
    (∀ (now : Int) (password : String) (st : ServerState),
      (rlStep 10 60 3600 (st.rate_limit (ip ++ ":" ++ LOGIN_KEY)) now).1 = .allowed →
      (admin_login cfg now ip ⟨slug, password⟩ st).1 = .error ⟨403, "비밀번호가 틀렸습니다."⟩
      ∧ ((admin_login cfg now ip ⟨slug, password⟩ st).2).failed_login (ip ++ ":" ++ slug)
          = st.failed_login (ip ++ ":" ++ slug) + 1)
    ∧ (∀ (now2 : Int) (ip2 : String) (data2 : LoginRequest) (st2 : ServerState),
        st2.failed_login (ip ++ ":" ++ slug)
          ≤ ((admin_login cfg now2 ip2 data2 st2).2).failed_login (ip ++ ":" ++ slug))
    ∧ (∀ (now2 : Int) (ip2 : String) (rdata : RefreshRequest) (st2 : ServerState),
        ((refresh_access_token cfg now2 ip2 rdata st2).2).failed_login = st2.failed_login)
    ∧ (∀ (now2 : Int) (auth : Option Token) (tdata : TimeUpdate) (st2 : ServerState),
        ((set_target_time cfg now2 auth tdata st2).2).failed_login = st2.failed_login) := by
  have hrejAll : ∀ password : String, loginRejected (get_admin_password cfg slug) password
      = true := by
    intro password
    rw [hnopw]
    rfl
  refine ⟨?_, ?_, ?_, ?_⟩
  · intro now password st hrl
    constructor
    · simp [admin_login, check_rate_limit, hrl, hslug, hrejAll]
    · simp [admin_login, check_rate_limit, hrl, hslug, hrejAll]
  · intro now2 ip2 data2 st2
    unfold admin_login
    cases hc : (check_rate_limit now2 ip2 LOGIN_KEY 10 60 3600 st2.rate_limit).1 with
    | error e => simp [hc]
    | ok u =>
      by_cases hmem : data2.slug ∈ SLUGS
      · by_cases hrej : loginRejected (get_admin_password cfg data2.slug) data2.password = true
        · simp only [hc, hmem, hrej, if_true, if_pos]
          by_cases hk : ip ++ ":" ++ slug = ip2 ++ ":" ++ data2.slug
          · simp [hk]
          · simp [hk]
        · have hne : ¬ (ip ++ ":" ++ slug = ip2 ++ ":" ++ data2.slug) := by
            intro hkeq
            have hsl : slug = data2.slug := key_slug_inj ip ip2 slug data2.slug hslug hmem hkeq
            exact hrej (by rw [← hsl]; exact hrejAll data2.password)
          simp [hc, hmem, hrej, hne]
      · simp [hc, hmem]
  · intro now2 ip2 rdata st2
    unfold refresh_access_token
    cases hc : (check_rate_limit now2 ip2 REFRESH_KEY 30 60 3600 st2.rate_limit).1 with
    | error e => simp [hc]
    | ok u =>
      simp only [hc]
      split
      · rfl
      · rfl
      · split
        · split <;> rfl
        · rfl
  · intro now2 auth tdata st2
    unfold set_target_time
    split
    · rfl
    · split <;> rfl

/-- Witness for C10 at the concrete configuration, whose min tenant has no
password: a failed attempt increments the counter and a successful se
login elsewhere leaves the min counter alone. -/
theorem C10_witness :
    (admin_login wCfg 0 ("ip1") ⟨"min", "whatever"⟩ wState).1
        = .error ⟨403, "비밀번호가 틀렸습니다."⟩
    ∧ ((admin_login wCfg 0 ("ip1") ⟨"min", "whatever"⟩ wState).2).failed_login ("ip1:min")
        = wState.failed_login ("ip1:min") + 1
    ∧ wState.failed_login ("ip1:min")
        ≤ ((admin_login wCfg 0 ("ip1") ⟨"se", "sepw"⟩ wState).2).failed_login ("ip1:min")
    ∧ ((refresh_access_token wCfg 0 ("ip1") ⟨⟨⟨some "se", 900⟩, "refresh-secret"⟩⟩
          wState).2).failed_login = wState.failed_login := by
  obtain ⟨h1, h2, h3, -⟩ := C10_no_password_tenant wCfg ("min") ("ip1") (by decide) (by decide)
  obtain ⟨ha, hb⟩ := h1 0 ("whatever") wState (by decide)
  exact ⟨ha, hb, h2 0 ("ip1") ⟨"se", "sepw"⟩ wState,
    h3 0 ("ip1") ⟨⟨⟨some "se", 900⟩, "refresh-secret"⟩⟩ wState⟩

end GoHome
